import Mathlib

/-!
Verification of the shelf-life prediction engine.

The development shallowly embeds the model-fitting and fusion core of the
repository: the GAB moisture-sorption model and combined fusion rule
(`combined_model.py`), the robust outlier filter and Arrhenius fitting
(`oxidation_fit.py`), and the GAB fitting wrapper (`moisture_fit.py`).

Real-valued formulas are embedded over `ℝ`.  The NaN sentinel used by the
source for "no fitted parameters" is modelled by `Option`: `none` stands
for NaN, and NaN propagation through arithmetic is made explicit at the
points where the source tests `np.isnan`.  The external scipy optimizer
`curve_fit` (an external collaborator, not part of the core) is modelled
as an `Except`-valued oracle passed as a parameter; a raised exception is
`Except.error`.  The data-preprocessing statistics (median / MAD / robust
z-score) are embedded over `ℚ`, with the natural logarithm `np.log` kept
abstract as a function parameter `ln`, since the statistics depend only on
the log-transformed values.
-/

namespace ShelfLife

/-- Gas constant, `R = 8.314` J/mol·K (`combined_model.py`, `oxidation_fit.py`). -/
noncomputable def R : ℝ := 8.314

/-- Reference temperature 25 °C in Kelvin, `T_25 = 298.15` (`oxidation_fit.py`). -/
noncomputable def T_25 : ℝ := 298.15

/-- GAB isotherm `M(aw) = W_m·C·K·aw / ((1 − K·aw)·(1 − K·aw + C·K·aw))`
(`gab_model` in `combined_model.py`; the identical definition also appears
in `moisture_fit.py`). -/
noncomputable def gab_model (aw W_m C K : ℝ) : ℝ :=
  W_m * C * K * aw / ((1 - K * aw) * (1 - K * aw + C * K * aw))

/-- Moisture-pathway shelf life
`t_s = (W_s / (A·WVTR)) · (M(aw_c) − M(aw_0))`
(`predict_shelf_life_moisture` in `combined_model.py`). -/
noncomputable def predict_shelf_life_moisture
    (W_m C K W_s A WVTR aw_c aw_0 : ℝ) : ℝ :=
  (W_s / (A * WVTR)) * (gab_model aw_c W_m C K - gab_model aw_0 W_m C K)

/-- Oxidation-pathway shelf life on non-NaN inputs
(`predict_shelf_life_oxidation` in `combined_model.py`):
`k_T = k_0·exp(−E_a·1000/(R·T_K))`, induction period `1/k_T` hours,
divided by 24 to convert to days.  The source's NaN guard on the inputs is
modelled at the call site in `predict_shelf_life_combined`, where the
fitted parameters are `Option`-valued. -/
noncomputable def predict_shelf_life_oxidation (E_a k_0 T_C : ℝ) : ℝ :=
  1 / (k_0 * Real.exp (-E_a * 1000 / (R * (T_C + 273.15)))) / 24

/-- Category-dependent water-activity pair `(aw_c, aw_0)`
(`get_aw_values` in `combined_model.py`). -/
noncomputable def get_aw_values (category : String) : ℝ × ℝ :=
  (if category ∈ ["C", "D", "P", "S"] then 0.6 else 0.5,
   if category ∈ ["D", "S"] then 0.4 else 0.3)

/-- A row of the fitted GAB parameter table
`outputs/moisture/gab_params_by_category.csv`; each parameter may be the
NaN sentinel (`none`) written by a failed fit. -/
structure MoistureRow where
  category : String
  W_m : Option ℝ
  C : Option ℝ
  K : Option ℝ

/-- A row of the fitted Arrhenius parameter table
`outputs/oxidation/oxidation_params_by_category.csv` (the extrapolated
induction-period column is not consumed by the combiner). -/
structure OxidationRow where
  category : String
  e_a : Option ℝ
  k_0 : Option ℝ

/-- The moisture branch of `predict_shelf_life_combined`: the first row of
the table matching the category supplies `(W_m, C, K)`; the shelf life is
computed when `W_m` is not NaN, and a NaN in `C` or `K` propagates through
`gab_model` to a NaN result (modelled as `none`). -/
noncomputable def moisture_pathway (category : String)
    (moisture_df : List MoistureRow) (W_s A WVTR : ℝ) : Option ℝ :=
  match moisture_df.find? (fun r => r.category == category) with
  | some r =>
    match r.W_m, r.C, r.K with
    | some w, some c, some k =>
        some (predict_shelf_life_moisture w c k W_s A WVTR
                (get_aw_values category).1 (get_aw_values category).2)
    | _, _, _ => none
  | none => none

/-- The oxidation branch of `predict_shelf_life_combined`: the first row of
the table matching the category supplies `(e_a, k_0)`; the source guards on
`np.isnan(E_a)` and `predict_shelf_life_oxidation` itself returns NaN when
either parameter is NaN, so the value is available exactly when both are. -/
noncomputable def oxidation_pathway (category : String)
    (oxidation_df : List OxidationRow) (T : ℝ) : Option ℝ :=
  match oxidation_df.find? (fun r => r.category == category) with
  | some r =>
    match r.e_a, r.k_0 with
    | some e, some k => some (predict_shelf_life_oxidation e k T)
    | _, _ => none
  | none => none

/-- Combined model (`predict_shelf_life_combined` in `combined_model.py`):
computes both pathway values from the parameter tables and selects the
dominant mechanism; `none` in the first component models the NaN shelf
life returned when neither pathway is available. -/
noncomputable def predict_shelf_life_combined (category : String)
    (moisture_df : List MoistureRow) (oxidation_df : List OxidationRow)
    (T W_s A WVTR : ℝ) : Option ℝ × String :=
  match (match moisture_df.find? (fun r => r.category == category) with
         | some r =>
           match r.W_m, r.C, r.K with
           | some w, some c, some k =>
               some (predict_shelf_life_moisture w c k W_s A WVTR
                       (get_aw_values category).1 (get_aw_values category).2)
           | _, _, _ => none
         | none => none),
        (match oxidation_df.find? (fun r => r.category == category) with
         | some r =>
           match r.e_a, r.k_0 with
           | some e, some k => some (predict_shelf_life_oxidation e k T)
           | _, _ => none
         | none => none) with
  | some m, some o =>
      if m ≤ o then (some m, "moisture gain") else (some o, "lipid oxidation")
  | some m, none => (some m, "moisture gain")
  | none, some o => (some o, "lipid oxidation")
  | none, none => (none, "none")

/-- The combiner is the selection rule applied to the two pathway values. -/
theorem combined_eq_select (category : String)
    (moisture_df : List MoistureRow) (oxidation_df : List OxidationRow)
    (T W_s A WVTR : ℝ) :
    predict_shelf_life_combined category moisture_df oxidation_df T W_s A WVTR =
      match moisture_pathway category moisture_df W_s A WVTR,
            oxidation_pathway category oxidation_df T with
      | some m, some o =>
          if m ≤ o then (some m, "moisture gain") else (some o, "lipid oxidation")
      | some m, none => (some m, "moisture gain")
      | none, some o => (some o, "lipid oxidation")
      | none, none => (none, "none") := rfl

/-- Claim C8: the water-activity lookup returns `aw_c = 0.6` exactly for the
category codes C, D, P, S and `0.5` otherwise, and `aw_0 = 0.4` exactly for
D, S and `0.3` otherwise; in particular category D yields `(0.6, 0.4)`,
category O yields `(0.5, 0.3)`, and the unrecognized code X receives the
fallback `(0.5, 0.3)`. -/
theorem aw_lookup_table (cat : String) :
    get_aw_values cat =
      ((if cat = "C" ∨ cat = "D" ∨ cat = "P" ∨ cat = "S" then (0.6 : ℝ) else 0.5),
       (if cat = "D" ∨ cat = "S" then (0.4 : ℝ) else 0.3))
    ∧ get_aw_values "D" = (0.6, 0.4)
    ∧ get_aw_values "O" = (0.5, 0.3)
    ∧ get_aw_values "X" = (0.5, 0.3) := by
  refine ⟨?_, ?_, ?_, ?_⟩ <;>
    simp [get_aw_values, List.mem_cons, List.mem_singleton]

/-- Claim C1: when both pathway values are available the combiner returns
their minimum with the matching mechanism label, labelling ties
"moisture gain"; when exactly one pathway is available it returns that
pathway's value and label with no comparison; when neither is available it
returns the NaN sentinel with mechanism "none". -/
theorem combined_selection_rule (category : String)
    (moisture_df : List MoistureRow) (oxidation_df : List OxidationRow)
    (T W_s A WVTR : ℝ) :
    (∀ m o, moisture_pathway category moisture_df W_s A WVTR = some m →
        oxidation_pathway category oxidation_df T = some o →
        predict_shelf_life_combined category moisture_df oxidation_df T W_s A WVTR =
          (some (min m o),
           if m ≤ o then "moisture gain" else "lipid oxidation"))
    ∧ (∀ m, moisture_pathway category moisture_df W_s A WVTR = some m →
        oxidation_pathway category oxidation_df T = none →
        predict_shelf_life_combined category moisture_df oxidation_df T W_s A WVTR =
          (some m, "moisture gain"))
    ∧ (∀ o, moisture_pathway category moisture_df W_s A WVTR = none →
        oxidation_pathway category oxidation_df T = some o →
        predict_shelf_life_combined category moisture_df oxidation_df T W_s A WVTR =
          (some o, "lipid oxidation"))
    ∧ (moisture_pathway category moisture_df W_s A WVTR = none →
        oxidation_pathway category oxidation_df T = none →
        predict_shelf_life_combined category moisture_df oxidation_df T W_s A WVTR =
          (none, "none")) := by
  rw [combined_eq_select]
  refine ⟨?_, ?_, ?_, ?_⟩
  · intro m o hm ho
    rw [hm, ho]
    by_cases h : m ≤ o
    · simp [h, min_eq_left h]
    · simp [h, min_eq_right (le_of_not_le h)]
  · intro m hm ho; rw [hm, ho]
  · intro o hm ho; rw [hm, ho]
  · intro hm ho; rw [hm, ho]

/-- Witness for `combined_selection_rule`: with GAB parameters
`(0, 1, 1/2)` for category C the moisture pathway yields shelf life `0`,
with Arrhenius parameters `(0, 1)` the oxidation pathway yields `1/24`,
and the combiner selects the minimum `0` labelled "moisture gain". -/
theorem combined_selection_rule_witness :
    predict_shelf_life_combined "C"
        [⟨"C", some 0, some 1, some (1/2)⟩] [⟨"C", some 0, some 1⟩]
        25 200 0.1 0.5 = (some 0, "moisture gain") := by
  have h := (combined_selection_rule "C"
      [⟨"C", some 0, some 1, some (1/2)⟩] [⟨"C", some 0, some 1⟩]
      25 200 0.1 0.5).1 0 (1/24)
      (by norm_num [moisture_pathway, List.find?, predict_shelf_life_moisture,
            gab_model, get_aw_values])
      (by norm_num [oxidation_pathway, List.find?, predict_shelf_life_oxidation,
            Real.exp_zero])
  rw [h]
  norm_num

/-- Claim C9: the moisture-pathway shelf life equals
`(W_s/(A·WVTR))·(M(aw_c) − M(aw_0))` with `M` the GAB isotherm; the GAB
isotherm at `aw = 0.5` with `(W_m, C, K) = (0.05, 10, 0.8)` equals
`0.2/(0.6·4.6)`; and `M(0) = 0` for any parameters. -/
theorem moisture_formula_and_gab_values (W_m C K W_s A WVTR aw_c aw_0 : ℝ) :
    predict_shelf_life_moisture W_m C K W_s A WVTR aw_c aw_0 =
      (W_s / (A * WVTR)) * (gab_model aw_c W_m C K - gab_model aw_0 W_m C K)
    ∧ gab_model 0.5 0.05 10 0.8 = 0.2 / (0.6 * 4.6)
    ∧ gab_model 0 W_m C K = 0 := by
  refine ⟨rfl, by norm_num [gab_model], by simp [gab_model]⟩

/-- Claim C10: for every category code, including codes outside the fixed
enumeration {C, D, F, O, P, S, W}, the combiner returns a well-formed
(shelf-life, mechanism) pair: an unrecognized code is not rejected but
silently receives the fallback water activities `(0.5, 0.3)`, a code
present in neither parameter table yields the NaN sentinel with mechanism
"none", and the mechanism label is always one of the three legal values. -/
theorem combined_total_fallback (cat : String)
    (moisture_df : List MoistureRow) (oxidation_df : List OxidationRow)
    (T W_s A WVTR : ℝ) :
    (¬ (cat = "C" ∨ cat = "D" ∨ cat = "F" ∨ cat = "O" ∨ cat = "P" ∨
        cat = "S" ∨ cat = "W") → get_aw_values cat = (0.5, 0.3))
    ∧ (moisture_df.find? (fun r => r.category == cat) = none →
       oxidation_df.find? (fun r => r.category == cat) = none →
       predict_shelf_life_combined cat moisture_df oxidation_df T W_s A WVTR =
         (none, "none"))
    ∧ ((predict_shelf_life_combined cat moisture_df oxidation_df T W_s A WVTR).2
          = "moisture gain"
       ∨ (predict_shelf_life_combined cat moisture_df oxidation_df T W_s A WVTR).2
          = "lipid oxidation"
       ∨ (predict_shelf_life_combined cat moisture_df oxidation_df T W_s A WVTR).2
          = "none") := by
  refine ⟨?_, ?_, ?_⟩
  · intro h
    push_neg at h
    obtain ⟨h1, h2, _, _, h5, h6, _⟩ := h
    simp [get_aw_values, List.mem_cons, List.mem_singleton, h1, h2, h5, h6]
  · intro hm ho
    rw [combined_eq_select]
    simp only [moisture_pathway, oxidation_pathway, hm, ho]
  · rw [combined_eq_select]
    rcases moisture_pathway cat moisture_df W_s A WVTR with _ | m <;>
      rcases oxidation_pathway cat oxidation_df T with _ | o <;>
      simp only [] <;> first | simp | (split <;> simp)

/-- Witness for `combined_total_fallback`: the unrecognized code Z receives
the fallback water activities, and with empty parameter tables the combiner
returns the sentinel with mechanism "none". -/
theorem combined_total_fallback_witness :
    get_aw_values "Z" = (0.5, 0.3)
    ∧ predict_shelf_life_combined "Z" [] [] 25 200 0.1 0.5 = (none, "none") := by
  refine ⟨(combined_total_fallback "Z" [] [] 25 200 0.1 0.5).1 (by decide),
          (combined_total_fallback "Z" [] [] 25 200 0.1 0.5).2.1 rfl rfl⟩

/-- Claim C4, counterexample: with the fitted pair `(E_a, k_0) = (0, 1)`
(both non-NaN) and temperatures `0 < 25`, the extrapolated induction
period does not strictly decrease — it is `1/24` days at both
temperatures, so the claim as stated fails. -/
theorem oxidation_monotone_cex :
    (0 : ℝ) < 25
    ∧ ¬ (predict_shelf_life_oxidation 0 1 25 < predict_shelf_life_oxidation 0 1 0) := by
  have h : predict_shelf_life_oxidation 0 1 25 = predict_shelf_life_oxidation 0 1 0 := by
    norm_num [predict_shelf_life_oxidation]
  exact ⟨by norm_num, by rw [h]; exact lt_irrefl _⟩

/-- Claim C4, amended: for a fixed fitted pair with positive activation
energy and positive pre-exponential factor, and storage temperatures above
absolute zero, increasing the storage temperature strictly decreases the
extrapolated induction period returned by `predict_shelf_life_oxidation`. -/
theorem oxidation_monotone (E_a k_0 T1 T2 : ℝ)
    (hE : 0 < E_a) (hk : 0 < k_0) (hT1 : -273.15 < T1) (h12 : T1 < T2) :
    predict_shelf_life_oxidation E_a k_0 T2 < predict_shelf_life_oxidation E_a k_0 T1 := by
  have hR : (0 : ℝ) < R := by norm_num [R]
  have hK1 : (0 : ℝ) < T1 + 273.15 := by linarith
  have hK2 : (0 : ℝ) < T2 + 273.15 := by linarith
  have hnum : (0 : ℝ) < E_a * 1000 := by linarith
  have hden : R * (T1 + 273.15) < R * (T2 + 273.15) :=
    mul_lt_mul_of_pos_left (by linarith) hR
  have hdiv : E_a * 1000 / (R * (T2 + 273.15)) < E_a * 1000 / (R * (T1 + 273.15)) :=
    div_lt_div_of_pos_left hnum (mul_pos hR hK1) hden
  have hexp : Real.exp (-E_a * 1000 / (R * (T1 + 273.15))) <
      Real.exp (-E_a * 1000 / (R * (T2 + 273.15))) := by
    apply Real.exp_lt_exp.2
    calc -E_a * 1000 / (R * (T1 + 273.15))
        = -(E_a * 1000 / (R * (T1 + 273.15))) := by ring
      _ < -(E_a * 1000 / (R * (T2 + 273.15))) := neg_lt_neg hdiv
      _ = -E_a * 1000 / (R * (T2 + 273.15)) := by ring
  have hk1 : (0 : ℝ) < k_0 * Real.exp (-E_a * 1000 / (R * (T1 + 273.15))) :=
    mul_pos hk (Real.exp_pos _)
  have hmul : k_0 * Real.exp (-E_a * 1000 / (R * (T1 + 273.15))) <
      k_0 * Real.exp (-E_a * 1000 / (R * (T2 + 273.15))) :=
    mul_lt_mul_of_pos_left hexp hk
  have hinv : 1 / (k_0 * Real.exp (-E_a * 1000 / (R * (T2 + 273.15)))) <
      1 / (k_0 * Real.exp (-E_a * 1000 / (R * (T1 + 273.15)))) :=
    one_div_lt_one_div_of_lt hk1 hmul
  unfold predict_shelf_life_oxidation
  exact div_lt_div_of_pos_right hinv (by norm_num)

/-- Witness for `oxidation_monotone`: with `(E_a, k_0) = (1, 1)` the
predicted shelf life at 30 °C is strictly below the one at 20 °C. -/
theorem oxidation_monotone_witness :
    predict_shelf_life_oxidation 1 1 30 < predict_shelf_life_oxidation 1 1 20 :=
  oxidation_monotone 1 1 20 30 (by norm_num) (by norm_num) (by norm_num) (by norm_num)

/-- The GAB isotherm is monotone in water activity over the physically
valid parameter range `W_m, C > 0`, `0 < K < 1`, activities in `[0, 1]`. -/
theorem gab_model_mono (w c k a0 ac : ℝ) (hw : 0 < w) (hc : 0 < c)
    (hk : 0 < k) (hk1 : k < 1) (h0 : 0 ≤ a0) (hle : a0 ≤ ac) (hac : ac ≤ 1) :
    gab_model a0 w c k ≤ gab_model ac w c k := by
  have ht0 : 0 ≤ k * a0 := mul_nonneg hk.le h0
  have htc0 : 0 ≤ k * ac := mul_nonneg hk.le (h0.trans hle)
  have htc1 : k * ac < 1 := by nlinarith
  have ht01 : k * a0 < 1 := by nlinarith
  have hD0 : 0 < (1 - k * a0) * (1 - k * a0 + c * k * a0) := by
    have h1 : 0 < 1 - k * a0 := by linarith
    have h2 : 0 < 1 - k * a0 + c * k * a0 := by nlinarith [mul_nonneg hc.le ht0]
    exact mul_pos h1 h2
  have hDc : 0 < (1 - k * ac) * (1 - k * ac + c * k * ac) := by
    have h1 : 0 < 1 - k * ac := by linarith
    have h2 : 0 < 1 - k * ac + c * k * ac := by nlinarith [mul_nonneg hc.le htc0]
    exact mul_pos h1 h2
  have hfac : 0 < 1 + (c - 1) * ((k * a0) * (k * ac)) := by
    rcases le_or_lt 1 c with h | h
    · nlinarith [mul_nonneg ht0 htc0]
    · have hprod : (k * a0) * (k * ac) ≤ 1 := by nlinarith
      nlinarith [mul_le_mul_of_nonneg_left hprod
        (by linarith : (0 : ℝ) ≤ 1 - c), mul_nonneg ht0 htc0]
  have hkey : a0 * ((1 - k * ac) * (1 - k * ac + c * k * ac)) ≤
      ac * ((1 - k * a0) * (1 - k * a0 + c * k * a0)) := by
    nlinarith [mul_nonneg (sub_nonneg.2 hle) hfac.le]
  unfold gab_model
  rw [div_le_div_iff₀ hD0 hDc]
  have hwck : (0 : ℝ) ≤ w * c * k := by positivity
  nlinarith [mul_le_mul_of_nonneg_left hkey hwck]

/-- The moisture-pathway shelf life is non-negative for physically valid
GAB parameters, positive scenario constants, and activities
`0 ≤ aw_0 ≤ aw_c ≤ 1`. -/
theorem predict_shelf_life_moisture_nonneg (w c k W_s A WVTR aw_c aw_0 : ℝ)
    (hw : 0 < w) (hc : 0 < c) (hk : 0 < k) (hk1 : k < 1)
    (hWs : 0 < W_s) (hA : 0 < A) (hWV : 0 < WVTR)
    (h0 : 0 ≤ aw_0) (hle : aw_0 ≤ aw_c) (hac : aw_c ≤ 1) :
    0 ≤ predict_shelf_life_moisture w c k W_s A WVTR aw_c aw_0 := by
  unfold predict_shelf_life_moisture
  have h1 : 0 ≤ W_s / (A * WVTR) := by positivity
  have h2 := gab_model_mono w c k aw_0 aw_c hw hc hk hk1 h0 hle hac
  exact mul_nonneg h1 (sub_nonneg.2 h2)

/-- The oxidation-pathway shelf life is non-negative whenever the fitted
pre-exponential factor is positive. -/
theorem predict_shelf_life_oxidation_nonneg (e k0 T : ℝ) (hk0 : 0 < k0) :
    0 ≤ predict_shelf_life_oxidation e k0 T := by
  unfold predict_shelf_life_oxidation
  have h1 : 0 < k0 * Real.exp (-e * 1000 / (R * (T + 273.15))) :=
    mul_pos hk0 (Real.exp_pos _)
  exact div_nonneg (one_div_pos.2 h1).le (by norm_num)

/-- Every water-activity pair produced by the lookup satisfies
`0 ≤ aw_0 ≤ aw_c ≤ 1`. -/
theorem get_aw_values_bounds (cat : String) :
    0 ≤ (get_aw_values cat).2 ∧ (get_aw_values cat).2 ≤ (get_aw_values cat).1
    ∧ (get_aw_values cat).1 ≤ 1 := by
  simp only [get_aw_values]
  split <;> split <;> norm_num

/-- A moisture-pathway value drawn from a table whose rows all carry
physically valid parameters is non-negative. -/
theorem moisture_pathway_nonneg (cat : String) (mdf : List MoistureRow)
    (W_s A WVTR : ℝ) (hWs : 0 < W_s) (hA : 0 < A) (hWV : 0 < WVTR)
    (hmdf : ∀ r ∈ mdf, ∀ w c k, r.W_m = some w → r.C = some c → r.K = some k →
        0 < w ∧ 0 < c ∧ 0 < k ∧ k < 1)
    (m : ℝ) (hm : moisture_pathway cat mdf W_s A WVTR = some m) : 0 ≤ m := by
  rcases hfind : mdf.find? (fun r => r.category == cat) with _ | r
  · simp only [moisture_pathway, hfind] at hm
    exact Option.noConfusion hm
  · have hrmem := List.mem_of_find?_eq_some hfind
    simp only [moisture_pathway, hfind] at hm
    rcases hW : r.W_m with _ | w <;> rcases hC : r.C with _ | c <;>
      rcases hK : r.K with _ | k <;> rw [hW, hC, hK] at hm <;>
      simp only [Option.some.injEq, reduceCtorEq] at hm
    obtain ⟨hw, hc, hk, hk1⟩ := hmdf r hrmem w c k hW hC hK
    obtain ⟨hb0, hble, hb1⟩ := get_aw_values_bounds cat
    rw [← hm]
    exact predict_shelf_life_moisture_nonneg w c k W_s A WVTR
      (get_aw_values cat).1 (get_aw_values cat).2
      hw hc hk hk1 hWs hA hWV hb0 hble hb1

/-- An oxidation-pathway value drawn from a table whose rows all carry a
positive pre-exponential factor is non-negative. -/
theorem oxidation_pathway_nonneg (cat : String) (odf : List OxidationRow)
    (T : ℝ) (hodf : ∀ r ∈ odf, ∀ k0, r.k_0 = some k0 → 0 < k0)
    (o : ℝ) (ho : oxidation_pathway cat odf T = some o) : 0 ≤ o := by
  rcases hfind : odf.find? (fun r => r.category == cat) with _ | r
  · simp only [oxidation_pathway, hfind] at ho
    exact Option.noConfusion ho
  · have hrmem := List.mem_of_find?_eq_some hfind
    simp only [oxidation_pathway, hfind] at ho
    rcases hE : r.e_a with _ | e <;> rcases hK : r.k_0 with _ | k0 <;>
      rw [hE, hK] at ho <;>
      simp only [Option.some.injEq, reduceCtorEq] at ho
    have hk0 := hodf r hrmem k0 hK
    rw [← ho]
    exact predict_shelf_life_oxidation_nonneg e k0 T hk0

/-- Claim C3, counterexample: with positive scenario constants
(`W_s = 200`, `A = 0.1`, `WVTR = 0.5`) but a fitted monolayer moisture
content `W_m = -0.05` (nothing in the code prevents the optimizer from
returning a negative parameter), the moisture-pathway shelf life is
strictly negative, so the claim as stated fails. -/
theorem shelf_life_nonneg_cex :
    (0 : ℝ) < 200 ∧ (0 : ℝ) < 0.1 ∧ (0 : ℝ) < 0.5
    ∧ predict_shelf_life_moisture (-0.05) 10 0.8 200 0.1 0.5 0.6 0.3 < 0 := by
  refine ⟨by norm_num, by norm_num, by norm_num, ?_⟩
  norm_num [predict_shelf_life_moisture, gab_model]

/-- Claim C3, amended: for physically valid fitted parameters
(`W_m, C > 0`, `0 < K < 1` for the moisture pathway, `k_0 > 0` for the
oxidation pathway), positive scenario constants, and water activities
`0 ≤ aw_0 ≤ aw_c ≤ 1`, the moisture-pathway value, the oxidation-pathway
value, and every shelf-life value produced by the combined prediction are
non-negative. -/
theorem shelf_life_nonneg
    (w c k W_s A WVTR aw_c aw_0 e k0 T : ℝ) (cat : String)
    (mdf : List MoistureRow) (odf : List OxidationRow)
    (hw : 0 < w) (hc : 0 < c) (hk : 0 < k) (hk1 : k < 1)
    (h0 : 0 ≤ aw_0) (hle : aw_0 ≤ aw_c) (hac : aw_c ≤ 1)
    (hWs : 0 < W_s) (hA : 0 < A) (hWV : 0 < WVTR) (hk0 : 0 < k0)
    (hmdf : ∀ r ∈ mdf, ∀ w' c' k', r.W_m = some w' → r.C = some c' →
        r.K = some k' → 0 < w' ∧ 0 < c' ∧ 0 < k' ∧ k' < 1)
    (hodf : ∀ r ∈ odf, ∀ k', r.k_0 = some k' → 0 < k') :
    0 ≤ predict_shelf_life_moisture w c k W_s A WVTR aw_c aw_0
    ∧ 0 ≤ predict_shelf_life_oxidation e k0 T
    ∧ ∀ v, (predict_shelf_life_combined cat mdf odf T W_s A WVTR).1 = some v →
        0 ≤ v := by
  refine ⟨predict_shelf_life_moisture_nonneg w c k W_s A WVTR aw_c aw_0
            hw hc hk hk1 hWs hA hWV h0 hle hac,
          predict_shelf_life_oxidation_nonneg e k0 T hk0, ?_⟩
  intro v hv
  rw [combined_eq_select] at hv
  rcases hmp : moisture_pathway cat mdf W_s A WVTR with _ | m <;>
    rcases hop : oxidation_pathway cat odf T with _ | o <;>
    rw [hmp, hop] at hv
  · simp at hv
  · simp only [Option.some.injEq] at hv
    exact hv ▸ oxidation_pathway_nonneg cat odf T hodf o hop
  · simp only [Option.some.injEq] at hv
    exact hv ▸ moisture_pathway_nonneg cat mdf W_s A WVTR hWs hA hWV hmdf m hmp
  · dsimp only at hv
    split_ifs at hv <;> simp only [Option.some.injEq] at hv
    · exact hv ▸ moisture_pathway_nonneg cat mdf W_s A WVTR hWs hA hWV hmdf m hmp
    · exact hv ▸ oxidation_pathway_nonneg cat odf T hodf o hop

/-- Witness for `shelf_life_nonneg`: at the physically valid parameters
`(W_m, C, K) = (0.05, 10, 0.8)` and the default scenario constants, the
moisture-pathway shelf life is non-negative. -/
theorem shelf_life_nonneg_witness :
    0 ≤ predict_shelf_life_moisture 0.05 10 0.8 200 0.1 0.5 0.6 0.3 :=
  (shelf_life_nonneg 0.05 10 0.8 200 0.1 0.5 0.6 0.3 1 1 25 "C" [] []
    (by norm_num) (by norm_num) (by norm_num) (by norm_num) (by norm_num)
    (by norm_num) (by norm_num) (by norm_num) (by norm_num) (by norm_num)
    (by norm_num)
    (fun r hr => absurd hr (List.not_mem_nil r))
    (fun r hr => absurd hr (List.not_mem_nil r))).1

/-- `np.median`: the middle element of the sorted list for odd length, the
average of the two middle elements for even length (`oxidation_fit.py`
uses `np.median` inside `mad` and `robust_z`). -/
def npMedian (l : List ℚ) : ℚ :=
  let s := l.insertionSort (fun a b => a ≤ b)
  if l.length % 2 = 1 then s.getD (l.length / 2) 0
  else (s.getD (l.length / 2 - 1) 0 + s.getD (l.length / 2) 0) / 2

/-- Median absolute deviation (`mad` in `oxidation_fit.py`):
`median(|x − median(series)|)`. -/
def mad (series : List ℚ) : ℚ :=
  npMedian (series.map (fun x => |x - npMedian series|))

/-- Robust z-score (`robust_z` in `oxidation_fit.py`): zero for every
observation when the MAD is zero, else `0.6745·(x − median)/MAD`. -/
def robust_z (series : List ℚ) : List ℚ :=
  if mad series = 0 then series.map (fun _ => 0)
  else series.map (fun x => 0.6745 * (x - npMedian series) / mad series)

/-- Outlier filter (`remove_outliers` in `oxidation_fit.py`): a group
smaller than `min_n` is returned unmodified; otherwise the induction
periods are log-transformed, robust z-scores are computed on the logs, and
exactly the rows with `|z| ≤ z_thresh` are kept.  The natural logarithm
`np.log` is kept abstract as the parameter `ln`, since the statistics
depend only on the log-transformed values. -/
def remove_outliers (ln : ℚ → ℚ) (z_thresh : ℚ) (min_n : ℕ)
    (group : List ℚ) : List ℚ :=
  if group.length < min_n then group
  else
    ((group.zip (robust_z (group.map ln))).filter
        (fun p => |p.2| ≤ z_thresh)).map Prod.fst

/-- Filtering a list zipped with its pointwise image by the predicate on
the image component is filtering by the composed predicate. -/
theorem zip_map_filter_fst (l : List ℚ) (g : ℚ → ℚ) (p : ℚ → Bool) :
    (((l.zip (l.map g)).filter (fun q => p q.2)).map Prod.fst) =
      l.filter (fun x => p (g x)) := by
  induction l with
  | nil => rfl
  | cons a t ih =>
    simp only [List.map_cons, List.zip_cons_cons, List.filter_cons]
    cases h : p (g a) <;> simp [h, ih]

/-- Claim C2: for every group of induction-period values, the outlier
filter keeps exactly the observations whose robust z-score
`0.6745·(x − median)/MAD` of the log-transformed values is at most the
threshold in absolute value; if the MAD of the log values is zero (and the
threshold is non-negative, as is the default 3.5) no observation is
discarded; and a group smaller than `min_n` is returned unmodified. -/
theorem remove_outliers_spec (ln : ℚ → ℚ) (z_thresh : ℚ) (min_n : ℕ)
    (group : List ℚ) :
    (min_n ≤ group.length → mad (group.map ln) ≠ 0 →
      remove_outliers ln z_thresh min_n group =
        group.filter (fun x =>
          |0.6745 * (ln x - npMedian (group.map ln)) / mad (group.map ln)|
            ≤ z_thresh))
    ∧ (min_n ≤ group.length → mad (group.map ln) = 0 → 0 ≤ z_thresh →
        remove_outliers ln z_thresh min_n group = group)
    ∧ (group.length < min_n → remove_outliers ln z_thresh min_n group = group) := by
  refine ⟨?_, ?_, ?_⟩
  · intro hlen hmad
    rw [remove_outliers, if_neg (not_lt.2 hlen), robust_z, if_neg hmad,
        List.map_map]
    exact zip_map_filter_fst group
      ((fun x => 0.6745 * (x - npMedian (List.map ln group)) /
          mad (List.map ln group)) ∘ ln)
      (fun v => decide (|v| ≤ z_thresh))
  · intro hlen hmad hth
    rw [remove_outliers, if_neg (not_lt.2 hlen), robust_z, if_pos hmad,
        List.map_map]
    rw [zip_map_filter_fst group ((fun _ => (0 : ℚ)) ∘ ln)
        (fun v => decide (|v| ≤ z_thresh))]
    simp [hth]
  · intro hlen
    rw [remove_outliers, if_pos hlen]

/-- Witness for `remove_outliers_spec`: on the six-point group
`[0, 1, 2, 3, 4, 100]` (taking `ln = id`) the MAD of the values is `1.5`,
so the filter keeps exactly the points whose robust z-score is within the
default threshold `3.5` — here it removes the outlier `100`. -/
theorem remove_outliers_spec_witness :
    remove_outliers id 3.5 6 [0, 1, 2, 3, 4, 100] =
      List.filter (fun x =>
        |0.6745 * (id x - npMedian ([0, 1, 2, 3, 4, 100].map id)) /
          mad ([0, 1, 2, 3, 4, 100].map id)| ≤ 3.5) [0, 1, 2, 3, 4, 100] :=
  (remove_outliers_spec id 3.5 6 [0, 1, 2, 3, 4, 100]).1
    (by decide)
    (by norm_num [mad, npMedian, List.insertionSort, List.orderedInsert,
          abs_eq_max_neg, max_def])

/-- Arrhenius model in linear form `ln(1/IP) = a + b·(1/T)`
(`arrhenius_linear_model` in `oxidation_fit.py`). -/
noncomputable def arrhenius_linear_model (x a b : ℝ) : ℝ := a + b * x

/-- The parameters recovered by a successful Arrhenius fit: activation
energy (kJ/mol), pre-exponential factor (1/h), and the extrapolated
induction period at 25 °C (hours).  The fit-quality metrics the source
also reports (R², RMSE, MAE, RSS) are not consumed by any downstream
computation and are omitted. -/
structure ArrheniusFit where
  Ea : ℝ
  k_0 : ℝ
  IP_25 : ℝ

/-- `fit_arrhenius_model` in `oxidation_fit.py`: the temperatures are
converted to `x = 1/T_K` and the induction periods to `y = ln(1/IP)`, and
the line `y = a + b·x` is fitted by the external optimizer `curve_fit`,
modelled as the `Except`-valued oracle `optimize` (any raised exception is
`Except.error`, caught by the source's bare `except`).  On success the
source recovers `Ea = −b·R/1000`, `k_0 = exp(a)`, and
`IP_25 = exp(−(a + b·(1/T_25)))`; on failure it returns the all-NaN
sentinel, modelled as `none`. -/
noncomputable def fit_arrhenius_model
    (optimize : List ℝ → List ℝ → Except Unit (ℝ × ℝ))
    (temps_C ips : List ℝ) : Option ArrheniusFit :=
  match optimize (temps_C.map (fun t => 1 / (t + 273.15)))
                 (ips.map (fun ip => Real.log (1 / ip))) with
  | .ok (a, b) =>
      some ⟨-b * R / 1000, Real.exp a,
            Real.exp (-(arrhenius_linear_model (1 / T_25) a b))⟩
  | .error _ => none

/-- The hours-to-days conversion of the extrapolated induction period
(`IP_25_days = IP_25 / 24 if not np.isnan(IP_25) else np.nan` in the
per-category loop of `oxidation_fit.py`). -/
noncomputable def IP_25_days (fit : Option ArrheniusFit) : Option ℝ :=
  fit.map (fun f => f.IP_25 / 24)

/-- The per-category Arrhenius fitting loop of `oxidation_fit.py`: each
group carries a category name and its averaged (temperature, mean
induction period) sample, and is fitted independently. -/
noncomputable def oxidation_fit_loop
    (optimize : List ℝ → List ℝ → Except Unit (ℝ × ℝ))
    (groups : List (String × List ℝ × List ℝ)) :
    List (String × Option ArrheniusFit) :=
  groups.map (fun g => (g.1, fit_arrhenius_model optimize g.2.1 g.2.2))

/-- `fit_gab_model` in `moisture_fit.py`: the external optimizer
`curve_fit` (modelled as an `Except`-valued oracle) fits `(W_m, C, K)`;
a raised convergence failure (`RuntimeError`) is caught and the all-NaN
sentinel, modelled as `none`, is returned. -/
def fit_gab_model (optimize : List ℝ → List ℝ → Except Unit (ℝ × ℝ × ℝ))
    (aw moisture : List ℝ) : Option (ℝ × ℝ × ℝ) :=
  match optimize aw moisture with
  | .ok p => some p
  | .error _ => none

/-- The per-category GAB fitting loop of `moisture_fit.py`: each group
carries a category name and its cleaned (water activity, moisture
content) sample, and is fitted independently. -/
def moisture_fit_loop (optimize : List ℝ → List ℝ → Except Unit (ℝ × ℝ × ℝ))
    (groups : List (String × List ℝ × List ℝ)) :
    List (String × Option (ℝ × ℝ × ℝ)) :=
  groups.map (fun g => (g.1, fit_gab_model optimize g.2.1 g.2.2))

/-- Claim C5: if the GAB optimizer raises a convergence failure on one
category's sample, the fitter records the sentinel for that category, the
run does not crash (the result still has one row per category), and every
other category's entry is exactly what fitting it alone produces. -/
theorem gab_fit_failure_isolated
    (optimize : List ℝ → List ℝ → Except Unit (ℝ × ℝ × ℝ))
    (groups : List (String × List ℝ × List ℝ)) (i : ℕ) (c : String)
    (aw moisture : List ℝ)
    (hi : groups[i]? = some (c, aw, moisture))
    (hfail : optimize aw moisture = Except.error ()) :
    (moisture_fit_loop optimize groups)[i]? = some (c, none)
    ∧ (moisture_fit_loop optimize groups).length = groups.length
    ∧ ∀ j, j ≠ i → (moisture_fit_loop optimize groups)[j]? =
        groups[j]?.map (fun g => (g.1, fit_gab_model optimize g.2.1 g.2.2)) := by
  refine ⟨?_, List.length_map groups _, fun j _ => List.getElem?_map _ groups j⟩
  rw [moisture_fit_loop, List.getElem?_map, hi]
  simp [fit_gab_model, hfail]

/-- Witness for `gab_fit_failure_isolated`: with an oracle that always
fails, the first category receives the sentinel row. -/
theorem gab_fit_failure_isolated_witness :
    (moisture_fit_loop (fun _ _ => Except.error ())
        [("A", [], []), ("B", [], [])])[0]? = some ("A", none) :=
  (gab_fit_failure_isolated (fun _ _ => Except.error ())
      [("A", [], []), ("B", [], [])] 0 "A" [] [] rfl rfl).1

/-- Claim C6: if a category's averaged oxidation sample has fewer than two
distinct temperature points (an underdetermined two-parameter fit, on
which the optimizer fails), or the Arrhenius fit raises any numerical
error, the fitter records the sentinel for that category, and every other
category's entry is exactly what fitting it alone produces. -/
theorem arrhenius_fit_failure_isolated
    (optimize : List ℝ → List ℝ → Except Unit (ℝ × ℝ))
    (groups : List (String × List ℝ × List ℝ)) (i : ℕ) (c : String)
    (temps ips : List ℝ)
    (hunder : ∀ x y, x.length < 2 → optimize x y = Except.error ())
    (hi : groups[i]? = some (c, temps, ips))
    (hfail : temps.length < 2 ∨
      optimize (temps.map (fun t => 1 / (t + 273.15)))
        (ips.map (fun ip => Real.log (1 / ip))) = Except.error ()) :
    (oxidation_fit_loop optimize groups)[i]? = some (c, none)
    ∧ (oxidation_fit_loop optimize groups).length = groups.length
    ∧ ∀ j, j ≠ i → (oxidation_fit_loop optimize groups)[j]? =
        groups[j]?.map
          (fun g => (g.1, fit_arrhenius_model optimize g.2.1 g.2.2)) := by
  refine ⟨?_, List.length_map groups _, fun j _ => List.getElem?_map _ groups j⟩
  have herr : optimize (temps.map (fun t => 1 / (t + 273.15)))
      (ips.map (fun ip => Real.log (1 / ip))) = Except.error () := by
    rcases hfail with h | h
    · exact hunder _ _ (by rw [List.length_map]; exact h)
    · exact h
  rw [oxidation_fit_loop, List.getElem?_map, hi]
  simp only [Option.map_some', fit_arrhenius_model, herr]

/-- Witness for `arrhenius_fit_failure_isolated`: a single-temperature
category (an underdetermined fit) receives the sentinel row. -/
theorem arrhenius_fit_failure_isolated_witness :
    (oxidation_fit_loop
        (fun x _ => if x.length < 2 then Except.error () else Except.ok (0, 0))
        [("A", [10], [5])])[0]? = some ("A", none) :=
  (arrhenius_fit_failure_isolated
      (fun x _ => if x.length < 2 then Except.error () else Except.ok (0, 0))
      [("A", [10], [5])] 0 "A" [10] [5]
      (fun x y h => by simp [h]) rfl (Or.inl (by norm_num))).1

/-- Claim C7: when the optimizer fits the line `ln(1/IP) = a + b·(1/T_K)`,
the Arrhenius fitter returns `activation_energy = −b·R/1000` with
`R = 8.314`, `pre_exponential_factor = exp(a)`, and an extrapolated
induction period at 298.15 K of `exp(−(a + b/298.15))` hours, which the
per-category loop converts to days by dividing by 24. -/
theorem arrhenius_fit_formulas
    (optimize : List ℝ → List ℝ → Except Unit (ℝ × ℝ))
    (temps_C ips : List ℝ) (a b : ℝ)
    (hok : optimize (temps_C.map (fun t => 1 / (t + 273.15)))
        (ips.map (fun ip => Real.log (1 / ip))) = Except.ok (a, b)) :
    fit_arrhenius_model optimize temps_C ips =
      some ⟨-b * 8.314 / 1000, Real.exp a, Real.exp (-(a + b / 298.15))⟩
    ∧ IP_25_days (fit_arrhenius_model optimize temps_C ips) =
      some (Real.exp (-(a + b / 298.15)) / 24) := by
  have hIP : arrhenius_linear_model (1 / T_25) a b = a + b / 298.15 := by
    rw [arrhenius_linear_model, T_25]; ring
  have h1 : fit_arrhenius_model optimize temps_C ips =
      some ⟨-b * 8.314 / 1000, Real.exp a, Real.exp (-(a + b / 298.15))⟩ := by
    rw [fit_arrhenius_model, hok]
    dsimp only
    rw [hIP]
    norm_num [R]
  exact ⟨h1, by rw [IP_25_days, h1]; rfl⟩

/-- Witness for `arrhenius_fit_formulas`: an oracle returning the line
`(a, b) = (0, 0)` yields activation energy `0`, pre-exponential factor
`exp 0`, and extrapolated induction period `exp (−(0 + 0/298.15))`. -/
theorem arrhenius_fit_formulas_witness :
    fit_arrhenius_model (fun _ _ => Except.ok ((0 : ℝ), (0 : ℝ))) [] [] =
      some ⟨-0 * 8.314 / 1000, Real.exp 0, Real.exp (-(0 + 0 / 298.15))⟩ :=
  (arrhenius_fit_formulas (fun _ _ => Except.ok (0, 0)) [] [] 0 0 rfl).1

end ShelfLife
